import Mathlib

/-!
Shallow embedding of the aggregation pipeline of `src/app.py`
(diabolical-ninja/naplan-performance), a Dash dashboard whose four callbacks
are pure transforms from in-memory tabular data plus filter state to a chart
specification.

Dataframes are embedded as lists of records; floats as exact rationals;
pandas `isin` as list membership; `groupby(...)["avg"].mean().reset_index()`
as a map over the deduplicated group keys taking the arithmetic mean of each
group; `sort_values(ascending=True, by="avg")` as a sort that is
non-decreasing on `avg`.  Each callback is embedded as a function returning
the parts of the produced figure the specification talks about (data rows,
layout height, plot background colour, titles).
-/

/-- One row of `naplan_results_df` (columns used by the callbacks:
`school_name`, `domain`, `results_year`, `year_level`, `avg`). -/
structure NaplanRecord where
  school_name : String
  domain : String
  results_year : Int
  year_level : String
  avg : ℚ
deriving DecidableEq

/-- One row of `recurrent_income_df` (columns `school_name`, `year`,
`Net recurrent income`, `$ per student`). -/
structure RecurrentIncomeRecord where
  school_name : String
  year : Int
  net_recurrent_income : String
  dollars_per_student : ℚ
deriving DecidableEq

/-- Arithmetic mean, as computed by pandas `.mean()` on a group. -/
def mean (xs : List ℚ) : ℚ := xs.sum / xs.length

/-- The grouping key of `groupby(["school_name", "results_year", "year_level"])`
in `update_naplan_results_per_year` (src/app.py line 256). -/
def naplanKey (r : NaplanRecord) : String × Int × String :=
  (r.school_name, r.results_year, r.year_level)

/-- A row of the `plot_df` built by `update_naplan_results_per_year`.  The
`domain == "All"` branch groups the `domain` column away (field `none`);
the other branch keeps all source columns (field `some`). -/
structure NaplanPlotRow where
  school_name : String
  results_year : Int
  year_level : String
  avg : ℚ
  domain : Option String
deriving DecidableEq

/-- The (school_name, results_year, year_level) key of a plot row. -/
def plotRowKey (p : NaplanPlotRow) : String × Int × String :=
  (p.school_name, p.results_year, p.year_level)

/-- A source row viewed as a plot row, keeping every column (the
`domain != "All"` branch of `update_naplan_results_per_year` passes the
filtered dataframe through unchanged). -/
def toPlotRow (r : NaplanRecord) : NaplanPlotRow :=
  ⟨r.school_name, r.results_year, r.year_level, r.avg, some r.domain⟩

/-- `naplan_results_df[naplan_results_df["school_name"].isin(school_selection)]`
(src/app.py line 255). -/
def selected_schools (df : List NaplanRecord) (sel : List String) : List NaplanRecord :=
  df.filter (fun r => decide (r.school_name ∈ sel))

/-- The output row of the grouped-mean aggregation for one group key. -/
def mkPlotRow (rows : List NaplanRecord) (k : String × Int × String) : NaplanPlotRow :=
  { school_name := k.1
    results_year := k.2.1
    year_level := k.2.2
    avg := mean ((rows.filter (fun r => decide (naplanKey r = k))).map NaplanRecord.avg)
    domain := none }

/-- `.groupby(["school_name", "results_year", "year_level"])["avg"].mean().reset_index()`
(src/app.py lines 256-258): one output row per distinct key present in the
input, carrying the mean of that group's `avg` values. -/
def groupMeanByKey (rows : List NaplanRecord) : List NaplanPlotRow :=
  ((rows.map naplanKey).dedup).map (mkPlotRow rows)

/-- The parts of the figure returned by `update_naplan_results_per_year`
that the specification describes. -/
structure NaplanFig where
  plot_bgcolor : String
  title : String
  y_axis_title : String
  height : Nat
  rows : List NaplanPlotRow
deriving DecidableEq

/-- `update_naplan_results_per_year` (src/app.py lines 247-285).  A `none`
selection is normalised to the empty list and switches the plot background
to "white"; a provided selection (even the empty list) keeps the default
"#e5ecf6" background.  For domain "All" the selected rows are grouped by
(school, year, level) with the mean of `avg`; otherwise the rows are
filtered to the selection and the chosen domain with no aggregation. -/
def update_naplan_results_per_year (df : List NaplanRecord)
    (school_selection : Option (List String)) (result_domain : String) : NaplanFig :=
  { plot_bgcolor :=
      match school_selection with
      | none => "white"
      | some _ => "#e5ecf6"
    title := result_domain ++ " NAPLAN Results"
    y_axis_title := if result_domain = "All" then "Average NAPLAN Score" else "NAPLAN Score"
    height := 700
    rows :=
      if result_domain = "All" then
        groupMeanByKey (selected_schools df (school_selection.getD []))
      else
        (df.filter (fun r =>
          decide (r.school_name ∈ school_selection.getD [])
            && decide (r.domain = result_domain))).map toPlotRow }

/-- A row of the `plot_df` of `update_top_ranked_schools`: the "All" branch
groups by `school_name` only (`results_year := none`); the specific-year
branch groups by (school_name, results_year). -/
structure TopRow where
  school_name : String
  results_year : Option Int
  avg : ℚ
deriving DecidableEq

/-- The ordering used by `sort_values(ascending=True, by="avg")`
(src/app.py line 300). -/
def TopRow.le (a b : TopRow) : Prop := a.avg ≤ b.avg

instance : DecidableRel TopRow.le :=
  fun a b => inferInstanceAs (Decidable (a.avg ≤ b.avg))

instance : IsTotal TopRow TopRow.le := ⟨fun a b => le_total a.avg b.avg⟩

instance : IsTrans TopRow TopRow.le := ⟨fun _ _ _ hab hbc => le_trans hab hbc⟩

/-- The year filter of the Top Schools tab: the sentinel "All" or a year. -/
inductive YearSel where
  | all : YearSel
  | year : Int → YearSel
deriving DecidableEq

/-- The parts of the figure returned by `update_top_ranked_schools`. -/
structure TopFig where
  title : String
  height : Nat
  rows : List TopRow
deriving DecidableEq

/-- Output row of the "All" branch groupby for one school. -/
def mkTopRowAll (df : List NaplanRecord) (s : String) : TopRow :=
  { school_name := s
    results_year := none
    avg := mean ((df.filter (fun r => decide (r.school_name = s))).map NaplanRecord.avg) }

/-- Output row of the specific-year branch groupby for one
(school_name, results_year) key. -/
def mkTopRowYear (filtered : List NaplanRecord) (k : String × Int) : TopRow :=
  { school_name := k.1
    results_year := some k.2
    avg := mean ((filtered.filter
      (fun r => decide ((r.school_name, r.results_year) = k))).map NaplanRecord.avg) }

/-- `update_top_ranked_schools` (src/app.py lines 289-319): for "All",
group the whole table by school and take the mean of `avg`; for a specific
year, filter to that year then group by (school, year); in both cases sort
the result ascending by `avg`. -/
def update_top_ranked_schools (df : List NaplanRecord) (results_year : YearSel) : TopFig :=
  { title := "Top Schools by Average NAPLAN Results"
    height := 700
    rows :=
      List.insertionSort TopRow.le
        (match results_year with
         | .all =>
             ((df.map NaplanRecord.school_name).dedup).map (mkTopRowAll df)
         | .year y =>
             (((df.filter (fun r => decide (r.results_year = y))).map
                 (fun r => (r.school_name, r.results_year))).dedup).map
               (mkTopRowYear (df.filter (fun r => decide (r.results_year = y))))) }

/-- The Top Schools tab as a function of its two dropdowns.  The figure is
produced by the callback registered with `Output("top-schools", "figure")`
and the single `Input("results-year", "value")` (src/app.py line 288); the
`top-n-skill-selection` dropdown (src/app.py lines 82-93) is wired to no
callback, so the rendered figure does not read the skill value. -/
def top_schools_tab_output (df : List NaplanRecord) (_skill_selection : String)
    (results_year : YearSel) : TopFig :=
  update_top_ranked_schools df results_year

/-- The `income_fields` list of `update_income_distribution` (src/app.py
lines 175-181); the commented-out "Total gross income" entry is excluded. -/
def income_fields : List String :=
  ["Australian government recurrent funding",
   "State / territory government recurring funding",
   "Fees, charges and parent contributions",
   "Other private sources"]

/-- The parts of the figures returned by `update_income_distribution` and
`update_recurrent_income`: the filtered rows and the layout height. -/
structure IncomeFig where
  height : Nat
  rows : List RecurrentIncomeRecord
deriving DecidableEq

/-- `update_income_distribution` (src/app.py lines 170-207): keep the rows
whose income label is one of the four funding-source categories and whose
school is selected; layout height is `max(300 * len(selection), 300)`. -/
def update_income_distribution (df : List RecurrentIncomeRecord)
    (school_selection : Option (List String)) : IncomeFig :=
  { height := max (300 * (school_selection.getD []).length) 300
    rows := df.filter (fun r =>
      decide (r.net_recurrent_income ∈ income_fields)
        && decide (r.school_name ∈ school_selection.getD [])) }

/-- `update_recurrent_income` (src/app.py lines 214-239): keep the rows
whose income label is "Total gross income" and whose school is selected;
same height rule as the income-distribution chart. -/
def update_recurrent_income (df : List RecurrentIncomeRecord)
    (school_selection : Option (List String)) : IncomeFig :=
  { height := max (300 * (school_selection.getD []).length) 300
    rows := df.filter (fun r =>
      decide (r.net_recurrent_income ∈ ["Total gross income"])
        && decide (r.school_name ∈ school_selection.getD [])) }

/-- A small concrete NAPLAN table used to instantiate the theorems. -/
def sampleNaplan : List NaplanRecord :=
  [⟨"School A", "Reading", 2020, "Year 5", 50⟩,
   ⟨"School A", "Writing", 2020, "Year 5", 70⟩,
   ⟨"School B", "Reading", 2020, "Year 5", 40⟩]

/-- A small concrete recurrent-income table used to instantiate the
theorems. -/
def sampleIncome : List RecurrentIncomeRecord :=
  [⟨"School A", 2020, "Other private sources", 5⟩,
   ⟨"School A", 2020, "Total gross income", 20⟩]

/-- Filtering a list of rows built from pairwise-distinct keys for one key
value retains exactly one row when the key occurs and none otherwise. -/
theorem length_filter_map_mk {K A : Type} [DecidableEq K]
    (mk : K → A) (keyOf : A → K) (hmk : ∀ k, keyOf (mk k) = k)
    (ks : List K) (hnd : ks.Nodup) (k : K) :
    ((ks.map mk).filter (fun a => decide (keyOf a = k))).length
      = if k ∈ ks then 1 else 0 := by
  induction ks with
  | nil => simp
  | cons k0 ks ih =>
    rcases List.nodup_cons.mp hnd with ⟨hk0, hnd'⟩
    simp only [List.map_cons, List.filter_cons, hmk, decide_eq_true_eq]
    by_cases h : k0 = k
    · subst h
      simp [ih hnd', hk0]
    · have hne : ¬ k = k0 := fun hh => h hh.symm
      simp [h, hne, ih hnd', List.mem_cons]

/-- Counting occurrences of a value survives an injective map. -/
theorem countP_map_inj {A B : Type} [DecidableEq A] [DecidableEq B] (f : A → B)
    (hf : ∀ a a', f a = f a' → a = a') (l : List A) (a : A) :
    ((l.map f).countP (fun b => decide (b = f a)))
      = l.countP (fun x => decide (x = a)) := by
  induction l with
  | nil => rfl
  | cons x l ih =>
    by_cases hxa : x = a
    · subst hxa
      simp [List.countP_cons, ih]
    · have hfx : ¬ (f x = f a) := fun h => hxa (hf _ _ h)
      simp [List.countP_cons, ih, hxa, hfx]

/-- Counting occurrences of a value in a filtered list: the multiplicity of
the original list when the value passes the filter, zero otherwise. -/
theorem countP_filter_eq {A : Type} [DecidableEq A] (p : A → Bool) (l : List A) (a : A) :
    ((l.filter p).countP (fun x => decide (x = a)))
      = if p a then l.countP (fun x => decide (x = a)) else 0 := by
  induction l with
  | nil => simp
  | cons x l ih =>
    by_cases hxa : x = a
    · subst hxa
      by_cases hpx : p x <;> simp [List.filter_cons, hpx, List.countP_cons, ih]
    · by_cases hpx : p x <;> simp [List.filter_cons, hpx, List.countP_cons, ih, hxa]

/-- Restricting to an empty school selection leaves no rows. -/
theorem selected_schools_nil (df : List NaplanRecord) : selected_schools df [] = [] := by
  simp [selected_schools]

/-- For domain "All" the plotted rows are the grouped means of the rows of
the selected schools. -/
theorem update_naplan_all_rows (df : List NaplanRecord) (osel : Option (List String)) :
    (update_naplan_results_per_year df osel "All").rows
      = groupMeanByKey (selected_schools df (osel.getD [])) := by
  simp [update_naplan_results_per_year]

/-- For a specific domain the plotted rows are the raw rows of the selected
schools carrying that domain. -/
theorem update_naplan_domain_rows (df : List NaplanRecord) (osel : Option (List String))
    (d : String) (hd : d ≠ "All") :
    (update_naplan_results_per_year df osel d).rows
      = (df.filter (fun r =>
          decide (r.school_name ∈ osel.getD []) && decide (r.domain = d))).map toPlotRow := by
  simp [update_naplan_results_per_year, hd]

/-- A selection that is absent or an empty list yields no plotted rows in
the historical-performance chart. -/
theorem naplan_rows_of_nil_selection (df : List NaplanRecord) (d : String)
    (osel : Option (List String)) (h : osel = none ∨ osel = some []) :
    (update_naplan_results_per_year df osel d).rows = [] := by
  have hsel : osel.getD [] = [] := by rcases h with rfl | rfl <;> rfl
  by_cases hd : d = "All"
  · subst hd
    rw [update_naplan_all_rows, hsel, selected_schools_nil]
    rfl
  · rw [update_naplan_domain_rows df osel d hd, hsel]
    simp

/-- Each grouped-mean output row's `avg` is the arithmetic mean of the input
`avg` values that share its key. -/
theorem avg_of_mem_groupMeanByKey {rows : List NaplanRecord} {row : NaplanPlotRow}
    (h : row ∈ groupMeanByKey rows) :
    row.avg = mean ((rows.filter
      (fun r => decide (naplanKey r = plotRowKey row))).map NaplanRecord.avg) := by
  rcases List.mem_map.mp h with ⟨k, _, rfl⟩
  rfl

/-- Per-key multiplicity of the grouped-mean output: one row per key present
in the input, none for any other key. -/
theorem groupMeanByKey_key_count (rows : List NaplanRecord) (k : String × Int × String) :
    ((groupMeanByKey rows).filter (fun row => decide (plotRowKey row = k))).length
      = if k ∈ rows.map naplanKey then 1 else 0 := by
  unfold groupMeanByKey
  rw [length_filter_map_mk (mkPlotRow rows) plotRowKey (fun _ => rfl) _
    (List.nodup_dedup _) k]
  simp [List.mem_dedup]

/-- Mapping a source row to a plot row keeps every field, hence is
injective. -/
theorem toPlotRow_inj (a a' : NaplanRecord) (h : toPlotRow a = toPlotRow a') : a = a' := by
  cases a
  cases a'
  simp only [toPlotRow, NaplanPlotRow.mk.injEq, Option.some.injEq] at h
  simp [NaplanRecord.mk.injEq]
  tauto

/-- C1: Historical Performance with domain "All" — for every school
selection the output rows are the selected-school NAPLAN rows grouped by
(school_name, results_year, year_level): exactly one output row per key
present among the selected rows, whose `avg` is the arithmetic mean of the
matching source `avg` values. -/
theorem historical_all_grouped_mean (df : List NaplanRecord) (sel : List String) :
    (∀ k : String × Int × String,
        (((update_naplan_results_per_year df (some sel) "All").rows.filter
            (fun row => decide (plotRowKey row = k))).length)
          = if k ∈ (selected_schools df sel).map naplanKey then 1 else 0)
    ∧ ∀ row : NaplanPlotRow,
        row ∈ (update_naplan_results_per_year df (some sel) "All").rows →
          row.avg = mean (((selected_schools df sel).filter
            (fun r => decide (naplanKey r = plotRowKey row))).map NaplanRecord.avg) := by
  constructor
  · intro k
    rw [update_naplan_all_rows]
    exact groupMeanByKey_key_count _ k
  · intro row h
    rw [update_naplan_all_rows] at h
    exact avg_of_mem_groupMeanByKey h

/-- Witness for C1: on the sample table, selecting School A with domain
"All" yields the single grouped row with mean (50 + 70) / 2 = 60. -/
theorem historical_all_grouped_mean_witness :
    ((⟨"School A", 2020, "Year 5", 60, none⟩ : NaplanPlotRow)
        ∈ (update_naplan_results_per_year sampleNaplan (some ["School A"]) "All").rows)
    ∧ (⟨"School A", 2020, "Year 5", 60, none⟩ : NaplanPlotRow).avg
        = mean (((selected_schools sampleNaplan ["School A"]).filter
            (fun r => decide (naplanKey r
              = plotRowKey ⟨"School A", 2020, "Year 5", 60, none⟩))).map NaplanRecord.avg) := by
  have hkeys : ((selected_schools sampleNaplan ["School A"]).map naplanKey).dedup
      = [("School A", 2020, "Year 5")] := rfl
  have hfil : (selected_schools sampleNaplan ["School A"]).filter
      (fun r => decide (naplanKey r = ("School A", 2020, "Year 5")))
      = [⟨"School A", "Reading", 2020, "Year 5", 50⟩,
         ⟨"School A", "Writing", 2020, "Year 5", 70⟩] := rfl
  have hrow : mkPlotRow (selected_schools sampleNaplan ["School A"]) ("School A", 2020, "Year 5")
      = (⟨"School A", 2020, "Year 5", 60, none⟩ : NaplanPlotRow) := by
    simp only [mkPlotRow, hfil]
    norm_num [mean]
  have hmem : (⟨"School A", 2020, "Year 5", 60, none⟩ : NaplanPlotRow)
      ∈ (update_naplan_results_per_year sampleNaplan (some ["School A"]) "All").rows := by
    rw [update_naplan_all_rows]
    rw [show (some ["School A"] : Option (List String)).getD [] = ["School A"] from rfl]
    rw [groupMeanByKey, hkeys, List.map_singleton, hrow]
    exact List.mem_singleton.mpr rfl
  exact ⟨hmem, (historical_all_grouped_mean sampleNaplan ["School A"]).2 _ hmem⟩

/-- C2: Historical Performance with a specific domain — the output rows are
exactly the source rows whose school is selected and whose domain is the
chosen one, each kept with its multiplicity and without any aggregation. -/
theorem historical_domain_rows_exact (df : List NaplanRecord) (sel : List String)
    (d : String) (hd : d ≠ "All") :
    (∀ row : NaplanPlotRow,
        row ∈ (update_naplan_results_per_year df (some sel) d).rows
          ↔ ∃ r : NaplanRecord, r ∈ df ∧ r.school_name ∈ sel ∧ r.domain = d
              ∧ toPlotRow r = row)
    ∧ ∀ r : NaplanRecord,
        ((update_naplan_results_per_year df (some sel) d).rows.countP
            (fun row => decide (row = toPlotRow r)))
          = if r.school_name ∈ sel ∧ r.domain = d
            then df.countP (fun x => decide (x = r)) else 0 := by
  constructor
  · intro row
    rw [update_naplan_domain_rows df (some sel) d hd]
    simp only [List.mem_map, List.mem_filter, Bool.and_eq_true, decide_eq_true_eq,
      Option.getD_some]
    constructor
    · rintro ⟨r, ⟨hrdf, hsel', hdom⟩, hrow⟩
      exact ⟨r, hrdf, hsel', hdom, hrow⟩
    · rintro ⟨r, hrdf, hsel', hdom, hrow⟩
      exact ⟨r, ⟨hrdf, hsel', hdom⟩, hrow⟩
  · intro r
    rw [update_naplan_domain_rows df (some sel) d hd,
      countP_map_inj toPlotRow toPlotRow_inj, countP_filter_eq]
    by_cases h1 : r.school_name ∈ sel <;> by_cases h2 : r.domain = d <;>
      simp [h1, h2]

/-- Witness for C2: the Reading row of School A survives the
domain-"Reading" filter on the sample table exactly once. -/
theorem historical_domain_rows_exact_witness :
    (toPlotRow ⟨"School A", "Reading", 2020, "Year 5", 50⟩
        ∈ (update_naplan_results_per_year sampleNaplan (some ["School A"]) "Reading").rows
      ↔ ∃ r : NaplanRecord, r ∈ sampleNaplan ∧ r.school_name ∈ ["School A"]
          ∧ r.domain = "Reading"
          ∧ toPlotRow r = toPlotRow ⟨"School A", "Reading", 2020, "Year 5", 50⟩)
    ∧ ((update_naplan_results_per_year sampleNaplan (some ["School A"]) "Reading").rows.countP
        (fun row => decide (row = toPlotRow ⟨"School A", "Reading", 2020, "Year 5", 50⟩)))
        = if ("School A" : String) ∈ ["School A"] ∧ ("Reading" : String) = "Reading"
          then sampleNaplan.countP
            (fun x => decide (x = ⟨"School A", "Reading", 2020, "Year 5", 50⟩)) else 0 :=
  ⟨(historical_domain_rows_exact sampleNaplan ["School A"] "Reading" (by decide)).1 _,
   (historical_domain_rows_exact sampleNaplan ["School A"] "Reading" (by decide)).2 _⟩

/-- C3: Top-Schools ranking — the output table is sorted non-decreasing by
`avg` for every year input, and for the "All" input it has exactly one row
per school appearing in the source, whose `avg` is the mean of all that
school's `avg` values across every year, domain and year level. -/
theorem top_ranked_schools_sorted_mean (df : List NaplanRecord) (ysel : YearSel) :
    List.Sorted TopRow.le (update_top_ranked_schools df ysel).rows
    ∧ (∀ s : String,
        ((update_top_ranked_schools df YearSel.all).rows.countP
            (fun row => decide (row.school_name = s)))
          = if s ∈ df.map NaplanRecord.school_name then 1 else 0)
    ∧ ∀ row : TopRow, row ∈ (update_top_ranked_schools df YearSel.all).rows →
        row.avg = mean ((df.filter
          (fun r => decide (r.school_name = row.school_name))).map NaplanRecord.avg) := by
  refine ⟨?_, ?_, ?_⟩
  · cases ysel with
    | all => exact List.sorted_insertionSort TopRow.le _
    | year y => exact List.sorted_insertionSort TopRow.le _
  · intro s
    have hperm := List.perm_insertionSort TopRow.le
      (((df.map NaplanRecord.school_name).dedup).map (mkTopRowAll df))
    have h1 : ((update_top_ranked_schools df YearSel.all).rows.countP
          (fun row => decide (row.school_name = s)))
        = ((((df.map NaplanRecord.school_name).dedup).map (mkTopRowAll df)).countP
            (fun row => decide (row.school_name = s))) := hperm.countP_eq _
    rw [h1, List.countP_eq_length_filter,
      length_filter_map_mk (mkTopRowAll df) TopRow.school_name (fun _ => rfl) _
        (List.nodup_dedup _) s]
    simp [List.mem_dedup]
  · intro row h
    have hperm := List.perm_insertionSort TopRow.le
      (((df.map NaplanRecord.school_name).dedup).map (mkTopRowAll df))
    have h' : row ∈ ((df.map NaplanRecord.school_name).dedup).map (mkTopRowAll df) :=
      hperm.mem_iff.mp h
    rcases List.mem_map.mp h' with ⟨s, _, rfl⟩
    rfl

/-- Witness for C3: on the sample table with year "All" the ranking is
sorted and School B's output row carries the mean of its single score. -/
theorem top_ranked_schools_sorted_mean_witness :
    List.Sorted TopRow.le (update_top_ranked_schools sampleNaplan YearSel.all).rows
    ∧ (⟨"School B", none, 40⟩ : TopRow).avg
        = mean ((sampleNaplan.filter
            (fun r => decide (r.school_name
              = (⟨"School B", none, 40⟩ : TopRow).school_name))).map NaplanRecord.avg) := by
  have hperm := List.perm_insertionSort TopRow.le
    (((sampleNaplan.map NaplanRecord.school_name).dedup).map (mkTopRowAll sampleNaplan))
  have hsB : ("School B" : String) ∈ (sampleNaplan.map NaplanRecord.school_name).dedup := by
    rw [List.mem_dedup]
    decide
  have hfil : sampleNaplan.filter (fun r => decide (r.school_name = "School B"))
      = [⟨"School B", "Reading", 2020, "Year 5", 40⟩] := rfl
  have hrow : mkTopRowAll sampleNaplan "School B" = (⟨"School B", none, 40⟩ : TopRow) := by
    simp only [mkTopRowAll, hfil]
    norm_num [mean]
  have hmem : (⟨"School B", none, 40⟩ : TopRow)
      ∈ (update_top_ranked_schools sampleNaplan YearSel.all).rows :=
    hperm.mem_iff.mpr (List.mem_map.mpr ⟨"School B", hsB, hrow⟩)
  exact ⟨(top_ranked_schools_sorted_mean sampleNaplan YearSel.all).1,
    (top_ranked_schools_sorted_mean sampleNaplan YearSel.all).2.2 _ hmem⟩

/-- C4: Income Distribution — every output row carries one of the four
funding-source labels (in particular never "Total gross income") and a
school from the requested selection. -/
theorem income_distribution_row_props (df : List RecurrentIncomeRecord)
    (school_selection : Option (List String)) (row : RecurrentIncomeRecord)
    (h : row ∈ (update_income_distribution df school_selection).rows) :
    row.net_recurrent_income ≠ "Total gross income"
    ∧ row.net_recurrent_income ∈ income_fields
    ∧ row.school_name ∈ school_selection.getD [] := by
  simp only [update_income_distribution, List.mem_filter, Bool.and_eq_true,
    decide_eq_true_eq] at h
  obtain ⟨-, hfields, hsel⟩ := h
  refine ⟨fun hTot => ?_, hfields, hsel⟩
  rw [hTot] at hfields
  exact absurd hfields (by decide)

/-- Witness for C4: the private-sources row of School A is in the output
for the selection ["School A"] and satisfies all three properties. -/
theorem income_distribution_row_props_witness :
    (⟨"School A", 2020, "Other private sources", 5⟩
        : RecurrentIncomeRecord).net_recurrent_income ≠ "Total gross income"
    ∧ (⟨"School A", 2020, "Other private sources", 5⟩
        : RecurrentIncomeRecord).net_recurrent_income ∈ income_fields
    ∧ (⟨"School A", 2020, "Other private sources", 5⟩
        : RecurrentIncomeRecord).school_name
        ∈ (some ["School A"] : Option (List String)).getD [] :=
  income_distribution_row_props sampleIncome (some ["School A"]) _ (by decide)

/-- C5: Recurrent Income Trend — the output rows are exactly the source
rows labelled "Total gross income" whose school is in the requested
selection, kept with their multiplicities and without grouping. -/
theorem recurrent_income_rows_exact (df : List RecurrentIncomeRecord)
    (school_selection : Option (List String)) :
    (∀ row : RecurrentIncomeRecord,
        row ∈ (update_recurrent_income df school_selection).rows
          ↔ row ∈ df ∧ row.net_recurrent_income = "Total gross income"
              ∧ row.school_name ∈ school_selection.getD [])
    ∧ ∀ row : RecurrentIncomeRecord,
        ((update_recurrent_income df school_selection).rows.countP
            (fun x => decide (x = row)))
          = if row.net_recurrent_income = "Total gross income"
                ∧ row.school_name ∈ school_selection.getD []
            then df.countP (fun x => decide (x = row)) else 0 := by
  constructor
  · intro row
    simp [update_recurrent_income, List.mem_filter]
  · intro row
    rw [show (update_recurrent_income df school_selection).rows
        = df.filter (fun r => decide (r.net_recurrent_income ∈ ["Total gross income"])
            && decide (r.school_name ∈ school_selection.getD [])) from rfl,
      countP_filter_eq]
    by_cases h1 : row.net_recurrent_income = "Total gross income" <;>
      by_cases h2 : row.school_name ∈ school_selection.getD [] <;>
        simp [h1, h2]

/-- Witness for C5: on the sample income table the "Total gross income" row
of School A is in the output for the selection ["School A"]. -/
theorem recurrent_income_rows_exact_witness :
    (⟨"School A", 2020, "Total gross income", 20⟩ : RecurrentIncomeRecord)
        ∈ (update_recurrent_income sampleIncome (some ["School A"])).rows
      ↔ (⟨"School A", 2020, "Total gross income", 20⟩ : RecurrentIncomeRecord) ∈ sampleIncome
          ∧ ("Total gross income" : String) = "Total gross income"
          ∧ ("School A" : String) ∈ (some ["School A"] : Option (List String)).getD [] :=
  (recurrent_income_rows_exact sampleIncome (some ["School A"])).1 _

/-- C6: an absent or empty school selection yields zero output rows in the
three selection-driven aggregations; Top-Schools takes no selection and is
total, returning an empty table on an empty dataset instead of failing. -/
theorem empty_selection_yields_no_rows (dfn : List NaplanRecord)
    (dfr : List RecurrentIncomeRecord) (d : String) (y : YearSel) :
    (update_income_distribution dfr none).rows = []
    ∧ (update_income_distribution dfr (some [])).rows = []
    ∧ (update_recurrent_income dfr none).rows = []
    ∧ (update_recurrent_income dfr (some [])).rows = []
    ∧ (update_naplan_results_per_year dfn none d).rows = []
    ∧ (update_naplan_results_per_year dfn (some []) d).rows = []
    ∧ (update_top_ranked_schools ([] : List NaplanRecord) y).rows = [] := by
  refine ⟨?_, ?_, ?_, ?_, naplan_rows_of_nil_selection dfn d none (Or.inl rfl),
    naplan_rows_of_nil_selection dfn d (some []) (Or.inr rfl), ?_⟩
  · simp [update_income_distribution]
  · simp [update_income_distribution]
  · simp [update_recurrent_income]
  · simp [update_recurrent_income]
  · cases y <;> rfl

/-- C7: each aggregation is a pure function of the loaded datasets and the
filter inputs, so rerunning it on the same loaded data with the same
filters returns an identical figure. -/
theorem aggregations_deterministic (dfn : List NaplanRecord)
    (dfr : List RecurrentIncomeRecord) (sel : Option (List String)) (d : String)
    (y : YearSel) :
    update_naplan_results_per_year dfn sel d = update_naplan_results_per_year dfn sel d
    ∧ update_top_ranked_schools dfn y = update_top_ranked_schools dfn y
    ∧ update_income_distribution dfr sel = update_income_distribution dfr sel
    ∧ update_recurrent_income dfr sel = update_recurrent_income dfr sel :=
  ⟨rfl, rfl, rfl, rfl⟩

/-- C8: the Income Distribution and Recurrent Income charts size their
layout to `max (300 * n) 300` for a selection of n schools: 300 * n when at
least one school is selected and the one-panel minimum 300 otherwise. -/
theorem facet_chart_height_rule (dfr : List RecurrentIncomeRecord) (sel : List String) :
    ((update_income_distribution dfr (some sel)).height = max (300 * sel.length) 300
      ∧ (update_recurrent_income dfr (some sel)).height = max (300 * sel.length) 300)
    ∧ (1 ≤ sel.length →
        (update_income_distribution dfr (some sel)).height = 300 * sel.length
          ∧ (update_recurrent_income dfr (some sel)).height = 300 * sel.length)
    ∧ (sel.length = 0 →
        (update_income_distribution dfr (some sel)).height = 300
          ∧ (update_recurrent_income dfr (some sel)).height = 300) := by
  refine ⟨⟨rfl, rfl⟩, fun h => ⟨?_, ?_⟩, fun h => ⟨?_, ?_⟩⟩
  · show max (300 * sel.length) 300 = 300 * sel.length
    exact Nat.max_eq_left (by omega)
  · show max (300 * sel.length) 300 = 300 * sel.length
    exact Nat.max_eq_left (by omega)
  · show max (300 * sel.length) 300 = 300
    rw [h]
    exact Nat.max_eq_right (by omega)
  · show max (300 * sel.length) 300 = 300
    rw [h]
    exact Nat.max_eq_right (by omega)

/-- Witness for C8: one selected school gives height 300, no selected
school still gives the one-panel minimum 300. -/
theorem facet_chart_height_rule_witness :
    (update_income_distribution [] (some ["School A"])).height = 300 * 1
    ∧ (update_recurrent_income [] (some [])).height = 300 :=
  ⟨((facet_chart_height_rule [] ["School A"]).2.1 (by decide)).1,
   ((facet_chart_height_rule [] []).2.2 (by decide)).2⟩

/-- C9 counterexample: with zero schools selected through an explicit empty
list, the result table is empty but the plot background is "#e5ecf6" — the
same colour a non-empty selection gets, not a distinguished one; only a
missing (None) selection switches the background. -/
theorem historical_empty_list_bgcolor_cex :
    (update_naplan_results_per_year sampleNaplan (some []) "All").rows = []
    ∧ (update_naplan_results_per_year sampleNaplan (some []) "All").plot_bgcolor
        = (update_naplan_results_per_year sampleNaplan (some ["School A"]) "All").plot_bgcolor :=
  ⟨naplan_rows_of_nil_selection sampleNaplan "All" (some []) (Or.inr rfl), rfl⟩

/-- C9 (amended): an absent (None) selection yields an empty result table
and the distinguished "white" background, different from the "#e5ecf6"
background used whenever a selection list is provided; an explicitly empty
selection list also yields an empty table but keeps the default
background. -/
theorem historical_missing_selection_bgcolor (df : List NaplanRecord) (d : String)
    (sel : List String) :
    (update_naplan_results_per_year df none d).rows = []
    ∧ (update_naplan_results_per_year df none d).plot_bgcolor = "white"
    ∧ (update_naplan_results_per_year df (some sel) d).plot_bgcolor = "#e5ecf6"
    ∧ (update_naplan_results_per_year df (some []) d).rows = []
    ∧ (update_naplan_results_per_year df none d).plot_bgcolor
        ≠ (update_naplan_results_per_year df (some sel) d).plot_bgcolor :=
  ⟨naplan_rows_of_nil_selection df d none (Or.inl rfl), rfl, rfl,
   naplan_rows_of_nil_selection df d (some []) (Or.inr rfl),
   by exact (by decide : ("white" : String) ≠ "#e5ecf6")⟩

/-- Witness for C9 (amended), at the sample table with domain "All" and the
selection ["School A"]. -/
theorem historical_missing_selection_bgcolor_witness :
    (update_naplan_results_per_year sampleNaplan none "All").rows = []
    ∧ (update_naplan_results_per_year sampleNaplan none "All").plot_bgcolor = "white"
    ∧ (update_naplan_results_per_year sampleNaplan (some ["School A"]) "All").plot_bgcolor
        = "#e5ecf6"
    ∧ (update_naplan_results_per_year sampleNaplan (some []) "All").rows = []
    ∧ (update_naplan_results_per_year sampleNaplan none "All").plot_bgcolor
        ≠ (update_naplan_results_per_year sampleNaplan (some ["School A"]) "All").plot_bgcolor :=
  historical_missing_selection_bgcolor sampleNaplan "All" ["School A"]

/-- C10: the Top Schools tab's rendered figure is independent of the
skill/domain dropdown — the callback producing it reads only the year
input, so any two skill values give identical output. -/
theorem top_schools_skill_noninterference (df : List NaplanRecord)
    (skill1 skill2 : String) (y : YearSel) :
    top_schools_tab_output df skill1 y = top_schools_tab_output df skill2 y := rfl
